import Mathlib

/-!
Shallow embedding of `Example06_Multisampling.cpp` (deko3d example 06,
"Simple Multisampling") together with theorems about its geometry data,
animation math, frame sequencing and resource lifecycle.

The example draws a rotating cube into a 4x multisampled color/depth render
target, resolves the multisampled color buffer into one of two presentable
framebuffers, and presents it through a swapchain.  The embedding models:

* the static cube vertex data (`CubeVertexData`);
* the deko3d image-layout builder (`ImageLayoutMaker`) and the enum types
  it uses, restricted to the values the example touches;
* command lists as lists of recorded commands (`Cmd`), and the externally
  visible queue/resource operations of a run as events (`Ev`);
* the object state of `CExample06` (`State`) and its methods
  (`createFramebufferResources`, `destroyFramebufferResources`,
  `recordStaticCommands`, `render`, `onOperationMode`, `onFrame`) as pure
  state transformers that also return the list of events they perform;
* the GLM matrix math used by `onFrame` over the real numbers
  (GLM transformation helpers post-multiply their matrix argument, as the
  source comment at `Example06_Multisampling.cpp:390-392` documents).

Floating point arithmetic is modelled by exact arithmetic: the vertex data
uses rationals, the transform matrices use real numbers.

Values returned by the environment (the framebuffer slot handed back by
`queue.acquireImage`, the dimensions chosen by `chooseFramebufferSize`, the
buttons reported by `hidKeysDown`) are passed in as parameters.
-/

namespace Example06

/-! ## Geometry data -/

/-- A vertex of the cube: position and color, three floats each
(`Example06_Multisampling.cpp:32-36`), modelled with exact rationals. -/
structure Vertex where
  position : ℚ × ℚ × ℚ
  color : ℚ × ℚ × ℚ
deriving DecidableEq

/-- The static vertex list (`Example06_Multisampling.cpp:49-86`):
six faces of four vertices each, written out face by face. -/
def CubeVertexData : List Vertex :=
  [ -- +X face
    { position := (1, 1, 1), color := (1, 0, 0) },
    { position := (1, -1, 1), color := (0, 1, 0) },
    { position := (1, -1, -1), color := (0, 0, 1) },
    { position := (1, 1, -1), color := (1, 1, 0) },
    -- -X face
    { position := (-1, 1, -1), color := (1, 0, 0) },
    { position := (-1, -1, -1), color := (0, 1, 0) },
    { position := (-1, -1, 1), color := (0, 0, 1) },
    { position := (-1, 1, 1), color := (1, 1, 0) },
    -- +Y face
    { position := (-1, 1, -1), color := (1, 0, 0) },
    { position := (-1, 1, 1), color := (0, 1, 0) },
    { position := (1, 1, 1), color := (0, 0, 1) },
    { position := (1, 1, -1), color := (1, 1, 0) },
    -- -Y face
    { position := (-1, -1, 1), color := (1, 0, 0) },
    { position := (-1, -1, -1), color := (0, 1, 0) },
    { position := (1, -1, -1), color := (0, 0, 1) },
    { position := (1, -1, 1), color := (1, 1, 0) },
    -- +Z face
    { position := (-1, 1, 1), color := (1, 0, 0) },
    { position := (-1, -1, 1), color := (0, 1, 0) },
    { position := (1, -1, 1), color := (0, 0, 1) },
    { position := (1, 1, 1), color := (1, 1, 0) },
    -- -Z face
    { position := (1, 1, -1), color := (1, 0, 0) },
    { position := (1, -1, -1), color := (0, 1, 0) },
    { position := (-1, -1, -1), color := (0, 0, 1) },
    { position := (-1, 1, -1), color := (1, 1, 0) } ]

/-- Face `i` of the cube: the `i`-th consecutive block of four entries of
`CubeVertexData` (the source groups the list into six such blocks, one
comment-labelled face each). -/
def cubeFace (i : Nat) : List Vertex :=
  (CubeVertexData.drop (4 * i)).take 4

/-- A position coordinate of the cube data is exactly `+1` or `-1`. -/
def coordIsUnit (c : ℚ) : Prop := c = 1 ∨ c = -1

instance (c : ℚ) : Decidable (coordIsUnit c) := by
  unfold coordIsUnit; infer_instance

/-- All three position coordinates of a vertex are `±1` (hence in `[-1,1]`). -/
def vertexPosUnit (v : Vertex) : Prop :=
  coordIsUnit v.position.1 ∧ coordIsUnit v.position.2.1 ∧ coordIsUnit v.position.2.2

instance (v : Vertex) : Decidable (vertexPosUnit v) := by
  unfold vertexPosUnit; infer_instance

/-! ## GLM matrix math

`onFrame` builds the model-view matrix with `glm::translate`, `glm::rotate`
and `glm::scale`.  As the source comment (`Example06_Multisampling.cpp:390-392`)
documents, these GLM helpers multiply the new transformation to the right of
their matrix argument, so each is modelled as a post-multiplication by the
corresponding transformation matrix (column-vector convention). -/

/-- Real 4x4 matrices, standing in for `glm::mat4`. -/
abbrev Mat4 := Matrix (Fin 4) (Fin 4) ℝ

/-- Translation matrix by `(x, y, z)` (column-vector convention). -/
noncomputable def translateMat (x y z : ℝ) : Mat4 :=
  !![1, 0, 0, x;
     0, 1, 0, y;
     0, 0, 1, z;
     0, 0, 0, 1]

/-- Rotation by angle `a` about the X axis `(1,0,0)`. -/
noncomputable def rotateXMat (a : ℝ) : Mat4 :=
  !![1, 0, 0, 0;
     0, Real.cos a, -(Real.sin a), 0;
     0, Real.sin a, Real.cos a, 0;
     0, 0, 0, 1]

/-- Rotation by angle `a` about the Y axis `(0,1,0)`. -/
noncomputable def rotateYMat (a : ℝ) : Mat4 :=
  !![Real.cos a, 0, Real.sin a, 0;
     0, 1, 0, 0;
     -(Real.sin a), 0, Real.cos a, 0;
     0, 0, 0, 1]

/-- Uniform scaling by `k` (the source passes `glm::vec3{0.5f}`, a splat). -/
noncomputable def scaleMat (k : ℝ) : Mat4 :=
  !![k, 0, 0, 0;
     0, k, 0, 0;
     0, 0, k, 0;
     0, 0, 0, 1]

/-- `glm::translate(m, {x,y,z})`: post-multiplies `m` by the translation. -/
noncomputable def glmTranslate (m : Mat4) (x y z : ℝ) : Mat4 :=
  m * translateMat x y z

/-- `glm::rotate(m, a, {1,0,0})`: post-multiplies `m` by the X rotation. -/
noncomputable def glmRotateX (m : Mat4) (a : ℝ) : Mat4 :=
  m * rotateXMat a

/-- `glm::rotate(m, a, {0,1,0})`: post-multiplies `m` by the Y rotation. -/
noncomputable def glmRotateY (m : Mat4) (a : ℝ) : Mat4 :=
  m * rotateYMat a

/-- `glm::scale(m, {k,k,k})`: post-multiplies `m` by the uniform scale. -/
noncomputable def glmScale (m : Mat4) (k : ℝ) : Mat4 :=
  m * scaleMat k

/-- `glm::radians`: degrees to radians. -/
noncomputable def radians (d : ℝ) : ℝ := d * Real.pi / 180

/-- `glm::perspectiveRH_ZO(fovy, aspect, zNear, zFar)` (column-vector
convention; right-handed, zero-to-one clip depth). -/
noncomputable def perspectiveRH_ZO (fovy aspect zNear zFar : ℝ) : Mat4 :=
  let tanHalfFovy := Real.tan (fovy / 2)
  !![1 / (aspect * tanHalfFovy), 0, 0, 0;
     0, 1 / tanHalfFovy, 0, 0;
     0, 0, zFar / (zNear - zFar), -(zFar * zNear) / (zFar - zNear);
     0, 0, -1, 0]

/-- `glm::two_pi<float>()`, the constant `tau` of `onFrame`. -/
noncomputable def two_pi : ℝ := 2 * Real.pi

/-- `fractf` (`Example06_Multisampling.cpp:94-97`): `x - floorf(x)`. -/
noncomputable def fractf (x : ℝ) : ℝ := x - (⌊x⌋ : ℤ)

/-- The time value `float time = ns / 1000000000.0;` of `onFrame`. -/
noncomputable def timeSeconds (ns : Nat) : ℝ := (ns : ℝ) / 1000000000

/-- The model-view matrix computed by `onFrame` for time input `ns`
(`Example06_Multisampling.cpp:383-397`), step by step as in the source. -/
noncomputable def mdlvMtxAt (ns : Nat) : Mat4 :=
  let time := timeSeconds ns
  let tau := two_pi
  let period1 := fractf (time / 8)
  let period2 := fractf (time / 4)
  let m : Mat4 := 1
  let m := glmTranslate m 0 0 (-3)
  let m := glmRotateX m (Real.sin (period2 * tau) * tau / 8)
  let m := glmRotateY m (-period1 * tau)
  let m := glmScale m (1 / 2)
  m

/-! ## deko3d data model

Enum types restricted to the values the example uses, the image-layout
builder, recorded commands, and externally visible events. -/

/-- `DkImageType`, restricted to the values used by the example. -/
inductive DkImageType
  | twoD
  | twoDMS
deriving DecidableEq

/-- `DkMsMode`: multisample mode. -/
inductive DkMsMode
  | oneX
  | twoX
  | fourX
  | eightX
deriving DecidableEq

/-- `DkImageFormat`, restricted to the values used by the example. -/
inductive DkImageFormat
  | none
  | RGBA8_Unorm
  | Z24S8
deriving DecidableEq

/-- `DkImageFlags` bits used by the example. -/
inductive DkImageFlag
  | UsageRender
  | Usage2DEngine
  | HwCompression
  | UsagePresent
deriving DecidableEq

/-- The result of `dk::ImageLayoutMaker::initialize`: the properties of an
image layout that the example observes. -/
structure ImageLayout where
  type : DkImageType
  flags : List DkImageFlag
  format : DkImageFormat
  msMode : DkMsMode
  width : Nat
  height : Nat
deriving DecidableEq

/-- `dk::ImageLayoutMaker`, with deko3d's defaults (2D, no flags, no format,
single-sampled, zero dimensions). -/
structure ImageLayoutMaker where
  type : DkImageType := DkImageType.twoD
  flags : List DkImageFlag := []
  format : DkImageFormat := DkImageFormat.none
  msMode : DkMsMode := DkMsMode.oneX
  width : Nat := 0
  height : Nat := 0
deriving DecidableEq

def ImageLayoutMaker.setType (m : ImageLayoutMaker) (t : DkImageType) : ImageLayoutMaker :=
  { m with type := t }

def ImageLayoutMaker.setFlags (m : ImageLayoutMaker) (f : List DkImageFlag) : ImageLayoutMaker :=
  { m with flags := f }

def ImageLayoutMaker.setFormat (m : ImageLayoutMaker) (f : DkImageFormat) : ImageLayoutMaker :=
  { m with format := f }

def ImageLayoutMaker.setMsMode (m : ImageLayoutMaker) (mode : DkMsMode) : ImageLayoutMaker :=
  { m with msMode := mode }

def ImageLayoutMaker.setDimensions (m : ImageLayoutMaker) (w h : Nat) : ImageLayoutMaker :=
  { m with width := w, height := h }

/-- `dk::ImageLayoutMaker::initialize`: produce the layout described so far. -/
def ImageLayoutMaker.makeLayout (m : ImageLayoutMaker) : ImageLayout :=
  { type := m.type, flags := m.flags, format := m.format,
    msMode := m.msMode, width := m.width, height := m.height }

/-- Identity of the images owned by `CExample06`: the multisampled color
buffer, the multisampled depth buffer, and the presentable framebuffers. -/
inductive ImageKind
  | colorBuffer
  | depthBuffer
  | framebuffer (i : Nat)
deriving DecidableEq

/-- `DkPrimitive` value used by the example. -/
inductive DkPrimitive
  | quads
deriving DecidableEq

/-- `dk::MultisampleState`, tracking the mode (deko3d default: 1x). -/
structure MultisampleState where
  mode : DkMsMode := DkMsMode.oneX
deriving DecidableEq

def MultisampleState.setMode (ms : MultisampleState) (m : DkMsMode) : MultisampleState :=
  { ms with mode := m }

/-- `dk::MultisampleState::setLocations()` with default locations: does not
change the mode. -/
def MultisampleState.setLocations (ms : MultisampleState) : MultisampleState :=
  ms

/-- A command recorded into a command list by `CExample06`. -/
inductive Cmd
  | resolveImage (src dst : ImageKind)
  | bindRenderTargets (color depth : ImageKind)
  | setViewports (w h : Nat)
  | setScissors (w h : Nat)
  | clearColor
  | clearDepthStencil
  | bindShaders
  | bindUniformBuffer
  | bindRasterizerState
  | bindMultisampleState (mode : DkMsMode)
  | bindColorState
  | bindColorWriteState
  | bindDepthStencilState
  | bindVtxBuffer
  | bindVtxAttribState
  | bindVtxBufferState
  | draw (prim : DkPrimitive) (vertexCount instanceCount : Nat)
  | pushConstants
  | discardColor
  | discardDepthStencil
deriving DecidableEq

/-- An externally visible action performed by a `CExample06` method, in
program order: queue operations, resource creation and destruction, and the
bookkeeping steps of the framebuffer lifecycle. -/
inductive Ev
  | submit (cmds : List Cmd)
  | acquireImage (slot : Nat)
  | presentImage (slot : Nat)
  | waitIdle
  | clearCmdbuf
  | destroySwapchain
  | destroyImageMem (k : ImageKind)
  | computeColorLayout (l : ImageLayout)
  | computeDepthLayout (l : ImageLayout)
  | computeFramebufferLayout (l : ImageLayout)
  | allocImageMem (k : ImageKind)
  | initImage (k : ImageKind)
  | recordResolveList (i : Nat)
  | createSwapchain (fbs : List ImageKind)
  | recordStatic
  | computeProjMtx (w h : Nat)
  | chooseFramebufferSize
deriving DecidableEq

/-! ## Object state and methods of `CExample06` -/

/-- `static constexpr unsigned NumFramebuffers = 2;`
(`Example06_Multisampling.cpp:102`). -/
def NumFramebuffers : Nat := 2

/-- `static constexpr DkMsMode MultisampleMode = DkMsMode_4x;`
(`Example06_Multisampling.cpp:105`). -/
def MultisampleMode : DkMsMode := DkMsMode.fourX

/-- The libnx `KEY_PLUS` button mask, `BIT(10)`. -/
def KEY_PLUS : Nat := 1024

/-- The `Transformation` uniform data (`Example06_Multisampling.cpp:88-92`):
model-view and projection matrices. -/
structure Transformation where
  mdlvMtx : Mat4
  projMtx : Mat4

/-- The mutable object state of `CExample06` that the example's methods
observe: framebuffer dimensions, the pending contents of the static command
buffer, the recorded command lists, the images (represented by their
layouts), whether the swapchain exists, and the transformation state. -/
structure State where
  framebufferWidth : Nat
  framebufferHeight : Nat
  cmdbufCmds : List Cmd
  render_cmdlist : List Cmd
  discard_cmdlist : List Cmd
  framebuffer_cmdlists : List (List Cmd)
  colorBuffer : ImageLayout
  depthBuffer : ImageLayout
  framebuffers : List ImageLayout
  swapchain : Bool
  transformState : Transformation

/-- The state right after the `CExample06` constructor
(`Example06_Multisampling.cpp:142-174`): no framebuffer resources exist yet,
no command lists are recorded, and the swapchain is absent.  The transform
matrices are uninitialized in the source; the model picks the identity. -/
noncomputable def initState : State :=
  { framebufferWidth := 0
    framebufferHeight := 0
    cmdbufCmds := []
    render_cmdlist := []
    discard_cmdlist := []
    framebuffer_cmdlists := []
    colorBuffer := ImageLayoutMaker.makeLayout {}
    depthBuffer := ImageLayoutMaker.makeLayout {}
    framebuffers := []
    swapchain := false
    transformState := { mdlvMtx := 1, projMtx := 1 } }

/-- The layout of the multisampled color buffer
(`Example06_Multisampling.cpp:191-198`). -/
def layout_colorbuffer (w h : Nat) : ImageLayout :=
  ((((({} : ImageLayoutMaker).setType DkImageType.twoDMS).setFlags
      [DkImageFlag.UsageRender, DkImageFlag.Usage2DEngine, DkImageFlag.HwCompression]).setFormat
      DkImageFormat.RGBA8_Unorm).setMsMode MultisampleMode).setDimensions w h
    |>.makeLayout

/-- The layout of the multisampled depth buffer
(`Example06_Multisampling.cpp:201-208`). -/
def layout_depthbuffer (w h : Nat) : ImageLayout :=
  ((((({} : ImageLayoutMaker).setType DkImageType.twoDMS).setFlags
      [DkImageFlag.UsageRender, DkImageFlag.HwCompression]).setFormat
      DkImageFormat.Z24S8).setMsMode MultisampleMode).setDimensions w h
    |>.makeLayout

/-- The layout of the presentable framebuffers
(`Example06_Multisampling.cpp:219-224`): no type or multisample mode is set,
so deko3d's single-sampled 2D defaults apply. -/
def layout_framebuffer (w h : Nat) : ImageLayout :=
  (((({} : ImageLayoutMaker).setFlags
      [DkImageFlag.Usage2DEngine, DkImageFlag.UsagePresent]).setFormat
      DkImageFormat.RGBA8_Unorm).setDimensions w h)
    |>.makeLayout

/-- `recordStaticCommands` (`Example06_Multisampling.cpp:283-333`): record
the main render command list and the discard command list into the static
command buffer, command by command as in the source.  Both lists are
finished, so no commands stay pending. -/
def recordStaticCommands (s : State) : State :=
  let multisampleState := (({} : MultisampleState).setMode MultisampleMode).setLocations
  let renderCmds : List Cmd :=
    [ Cmd.bindRenderTargets ImageKind.colorBuffer ImageKind.depthBuffer,
      Cmd.setViewports s.framebufferWidth s.framebufferHeight,
      Cmd.setScissors s.framebufferWidth s.framebufferHeight,
      Cmd.clearColor,
      Cmd.clearDepthStencil,
      Cmd.bindShaders,
      Cmd.bindUniformBuffer,
      Cmd.bindRasterizerState,
      Cmd.bindMultisampleState multisampleState.mode,
      Cmd.bindColorState,
      Cmd.bindColorWriteState,
      Cmd.bindDepthStencilState,
      Cmd.bindVtxBuffer,
      Cmd.bindVtxAttribState,
      Cmd.bindVtxBufferState,
      Cmd.draw DkPrimitive.quads CubeVertexData.length 1 ]
  let discardCmds : List Cmd :=
    [ Cmd.bindRenderTargets ImageKind.colorBuffer ImageKind.depthBuffer,
      Cmd.discardColor,
      Cmd.discardDepthStencil ]
  { s with render_cmdlist := renderCmds, discard_cmdlist := discardCmds, cmdbufCmds := [] }

/-- `createFramebufferResources` (`Example06_Multisampling.cpp:188-256`):
compute the multisampled color and depth layouts, allocate and initialize
the color and depth buffers, compute the presentable framebuffer layout,
allocate and initialize each framebuffer and record its resolve command
list, create the swapchain from the framebuffers, record the static command
lists, and compute the projection matrix from the current dimensions. -/
noncomputable def createFramebufferResources (s : State) : State × List Ev :=
  let w := s.framebufferWidth
  let h := s.framebufferHeight
  let lcolor := layout_colorbuffer w h
  let ldepth := layout_depthbuffer w h
  let lfb := layout_framebuffer w h
  let fbLoopEvs : List Ev :=
    ((List.range NumFramebuffers).map fun i =>
      [Ev.allocImageMem (ImageKind.framebuffer i),
       Ev.initImage (ImageKind.framebuffer i),
       Ev.recordResolveList i]).flatten
  let evs : List Ev :=
    [Ev.computeColorLayout lcolor,
     Ev.computeDepthLayout ldepth,
     Ev.allocImageMem ImageKind.colorBuffer,
     Ev.initImage ImageKind.colorBuffer,
     Ev.allocImageMem ImageKind.depthBuffer,
     Ev.initImage ImageKind.depthBuffer,
     Ev.computeFramebufferLayout lfb]
    ++ fbLoopEvs
    ++ [Ev.createSwapchain ((List.range NumFramebuffers).map ImageKind.framebuffer),
        Ev.recordStatic,
        Ev.computeProjMtx w h]
  let s1 :=
    { s with
        colorBuffer := lcolor
        depthBuffer := ldepth
        framebuffers := (List.range NumFramebuffers).map fun _ => lfb
        framebuffer_cmdlists := (List.range NumFramebuffers).map fun i =>
          [Cmd.resolveImage ImageKind.colorBuffer (ImageKind.framebuffer i)]
        swapchain := true }
  let s2 := recordStaticCommands s1
  let s3 :=
    { s2 with
        transformState :=
          { s2.transformState with
              projMtx := perspectiveRH_ZO (radians 40) ((w : ℝ) / (h : ℝ)) (1 / 100) 1000 } }
  (s3, evs)

/-- `destroyFramebufferResources` (`Example06_Multisampling.cpp:258-281`):
return early if the swapchain is absent; otherwise wait for the queue to go
idle, clear the static command buffer, destroy the swapchain, then destroy
each framebuffer's memory, the depth buffer's memory and the color buffer's
memory. -/
def destroyFramebufferResources (s : State) : State × List Ev :=
  if s.swapchain then
    ({ s with cmdbufCmds := [], swapchain := false },
     [Ev.waitIdle, Ev.clearCmdbuf, Ev.destroySwapchain]
       ++ ((List.range NumFramebuffers).map fun i => Ev.destroyImageMem (ImageKind.framebuffer i))
       ++ [Ev.destroyImageMem ImageKind.depthBuffer, Ev.destroyImageMem ImageKind.colorBuffer])
  else
    (s, [])

/-- `render` (`Example06_Multisampling.cpp:335-362`): submit the dynamic
command list (which pushes the transformation constants), submit the static
render list, acquire a framebuffer slot from the swapchain, submit that
slot's resolve list, submit the discard list, and present the slot.  The
slot returned by `queue.acquireImage` is passed in as a parameter. -/
def render (s : State) (slot : Nat) : State × List Ev :=
  let dynlist : List Cmd := [Cmd.pushConstants]
  (s,
   [Ev.submit dynlist,
    Ev.submit s.render_cmdlist,
    Ev.acquireImage slot,
    Ev.submit (s.framebuffer_cmdlists.getD slot []),
    Ev.submit s.discard_cmdlist,
    Ev.presentImage slot])

/-- `onOperationMode` (`Example06_Multisampling.cpp:364-374`): destroy the
framebuffer resources, choose the new framebuffer size, and recreate the
framebuffer resources.  The dimensions chosen by `chooseFramebufferSize`
(which lives in the sample framework, outside this file) are passed in as
parameters. -/
noncomputable def onOperationMode (s : State) (newW newH : Nat) : State × List Ev :=
  let d := destroyFramebufferResources s
  let s1 := { d.1 with framebufferWidth := newW, framebufferHeight := newH }
  let c := createFramebufferResources s1
  (c.1, d.2 ++ [Ev.chooseFramebufferSize] ++ c.2)

/-- `onFrame` (`Example06_Multisampling.cpp:376-401`): if `KEY_PLUS` is
newly pressed, return `false` at once; otherwise write the new model-view
matrix for time `ns` into the transformation state, render a frame, and
return `true`.  The pressed-key mask and the acquired slot are passed in as
parameters. -/
noncomputable def onFrame (s : State) (ns kDown slot : Nat) : Bool × State × List Ev :=
  if kDown &&& KEY_PLUS ≠ 0 then
    (false, s, [])
  else
    let s1 := { s with transformState := { s.transformState with mdlvMtx := mdlvMtxAt ns } }
    let r := render s1 slot
    (true, r.1, r.2)

/-- A concrete state whose swapchain exists, as produced by running the
constructor and then a resource rebuild would; used to instantiate the
lifecycle theorems on a concrete input. -/
noncomputable def statePresent : State :=
  { initState with swapchain := true }

/-! ## Theorems -/

/-- Helper: on a state whose swapchain exists, `destroyFramebufferResources`
waits for the queue, clears the static command buffer, destroys the
swapchain, then the framebuffer memory, the depth memory, the color memory. -/
theorem destroy_present_eq (s : State) (h : s.swapchain = true) :
    destroyFramebufferResources s =
      ({ s with cmdbufCmds := [], swapchain := false },
       [Ev.waitIdle, Ev.clearCmdbuf, Ev.destroySwapchain,
        Ev.destroyImageMem (ImageKind.framebuffer 0),
        Ev.destroyImageMem (ImageKind.framebuffer 1),
        Ev.destroyImageMem ImageKind.depthBuffer,
        Ev.destroyImageMem ImageKind.colorBuffer]) := by
  simp only [destroyFramebufferResources, h, if_true]
  rfl

/-- Helper: the event sequence of `createFramebufferResources`, written out. -/
theorem create_events_eq (s : State) :
    (createFramebufferResources s).2 =
      [Ev.computeColorLayout (layout_colorbuffer s.framebufferWidth s.framebufferHeight),
       Ev.computeDepthLayout (layout_depthbuffer s.framebufferWidth s.framebufferHeight),
       Ev.allocImageMem ImageKind.colorBuffer,
       Ev.initImage ImageKind.colorBuffer,
       Ev.allocImageMem ImageKind.depthBuffer,
       Ev.initImage ImageKind.depthBuffer,
       Ev.computeFramebufferLayout (layout_framebuffer s.framebufferWidth s.framebufferHeight),
       Ev.allocImageMem (ImageKind.framebuffer 0),
       Ev.initImage (ImageKind.framebuffer 0),
       Ev.recordResolveList 0,
       Ev.allocImageMem (ImageKind.framebuffer 1),
       Ev.initImage (ImageKind.framebuffer 1),
       Ev.recordResolveList 1,
       Ev.createSwapchain [ImageKind.framebuffer 0, ImageKind.framebuffer 1],
       Ev.recordStatic,
       Ev.computeProjMtx s.framebufferWidth s.framebufferHeight] := rfl

/-- C1: in every call to `render`, the queue operations happen in this fixed
order: submit the dynamic uniform-update list, submit the static render
list, acquire a presentable slot from the swapchain, submit that slot's
resolve list, submit the discard list, present the slot.  In particular the
resolve submission (position 3) is after the render submission (position 1)
and before the discard submission (position 4) and the present (position 5). -/
theorem render_submission_order (s : State) (slot : Nat) :
    (render s slot).2 =
      [Ev.submit [Cmd.pushConstants],
       Ev.submit s.render_cmdlist,
       Ev.acquireImage slot,
       Ev.submit (s.framebuffer_cmdlists.getD slot []),
       Ev.submit s.discard_cmdlist,
       Ev.presentImage slot] := rfl

/-- C2: for every time input `ns` with the exit key not pressed, the
model-view matrix written by `onFrame` is exactly
`Translate(0,0,-3) * RotateX(sin(fract(t/4)*tau)*tau/8)
 * RotateY(-fract(t/8)*tau) * Scale(0.5)` with `t = ns / 1e9`, and the
result depends on `ns` alone: any two calls with the same `ns` (and the exit
key not pressed) write the same matrix. -/
theorem onFrame_mdlvMtx_formula (s : State) (ns kDown slot : Nat)
    (h : kDown &&& KEY_PLUS = 0) :
    ((onFrame s ns kDown slot).2.1).transformState.mdlvMtx =
      translateMat 0 0 (-3) *
        rotateXMat (Real.sin (fractf (timeSeconds ns / 4) * two_pi) * two_pi / 8) *
        rotateYMat (-(fractf (timeSeconds ns / 8) * two_pi)) *
        scaleMat (1 / 2) ∧
    (∀ s2 : State, ∀ kDown2 slot2 : Nat, kDown2 &&& KEY_PLUS = 0 →
      ((onFrame s2 ns kDown2 slot2).2.1).transformState.mdlvMtx =
      ((onFrame s ns kDown slot).2.1).transformState.mdlvMtx) := by
  have hc : ¬ kDown &&& KEY_PLUS ≠ 0 := fun hne => hne h
  constructor
  · simp only [onFrame, if_neg hc, render]
    simp only [mdlvMtxAt, glmTranslate, glmRotateX, glmRotateY, glmScale, one_mul]
    rw [neg_mul]
  · intro s2 kDown2 slot2 h2
    have hc2 : ¬ kDown2 &&& KEY_PLUS ≠ 0 := fun hne => hne h2
    simp only [onFrame, if_neg hc, if_neg hc2, render]

/-- Witness for C2 at the concrete input `ns = 0`, `kDown = 0`, `slot = 0`
on the post-constructor state. -/
theorem onFrame_mdlvMtx_formula_witness :
    (0 : Nat) &&& KEY_PLUS = 0 ∧
    (((onFrame initState 0 0 0).2.1).transformState.mdlvMtx =
       translateMat 0 0 (-3) *
         rotateXMat (Real.sin (fractf (timeSeconds 0 / 4) * two_pi) * two_pi / 8) *
         rotateYMat (-(fractf (timeSeconds 0 / 8) * two_pi)) *
         scaleMat (1 / 2) ∧
     (∀ s2 : State, ∀ kDown2 slot2 : Nat, kDown2 &&& KEY_PLUS = 0 →
       ((onFrame s2 0 kDown2 slot2).2.1).transformState.mdlvMtx =
       ((onFrame initState 0 0 0).2.1).transformState.mdlvMtx)) :=
  ⟨by decide, onFrame_mdlvMtx_formula initState 0 0 0 (by decide)⟩

/-- C3: the static vertex list has exactly 24 vertices, partitioned into the
6 consecutive faces of exactly 4 entries each (each entry belongs to exactly
one face — there is no shared-vertex indexing), and every position
coordinate is `+1` or `-1`, hence lies in `[-1, 1]`. -/
theorem cubeVertexData_faces :
    CubeVertexData.length = 24 ∧
    ((cubeFace 0).length = 4 ∧ (cubeFace 1).length = 4 ∧ (cubeFace 2).length = 4 ∧
     (cubeFace 3).length = 4 ∧ (cubeFace 4).length = 4 ∧ (cubeFace 5).length = 4) ∧
    CubeVertexData =
      cubeFace 0 ++ cubeFace 1 ++ cubeFace 2 ++ cubeFace 3 ++ cubeFace 4 ++ cubeFace 5 ∧
    (CubeVertexData.all fun v => decide (vertexPosUnit v)) = true ∧
    (CubeVertexData.all fun v =>
      decide (-1 ≤ v.position.1 ∧ v.position.1 ≤ 1 ∧
              -1 ≤ v.position.2.1 ∧ v.position.2.1 ≤ 1 ∧
              -1 ≤ v.position.2.2 ∧ v.position.2.2 ≤ 1)) = true := by
  decide

/-- C4: whenever the swapchain exists, `destroyFramebufferResources` puts
`queue.waitIdle()` first, before any destruction, and then destroys in the
order: clear the static command buffer, destroy the swapchain, destroy each
framebuffer memory handle, destroy the depth-buffer memory, destroy the
color-buffer memory. -/
theorem destroyFramebufferResources_order (s : State) (h : s.swapchain = true) :
    destroyFramebufferResources s =
      ({ s with cmdbufCmds := [], swapchain := false },
       [Ev.waitIdle, Ev.clearCmdbuf, Ev.destroySwapchain,
        Ev.destroyImageMem (ImageKind.framebuffer 0),
        Ev.destroyImageMem (ImageKind.framebuffer 1),
        Ev.destroyImageMem ImageKind.depthBuffer,
        Ev.destroyImageMem ImageKind.colorBuffer]) :=
  destroy_present_eq s h

/-- Witness for C4 on a concrete state whose swapchain exists. -/
theorem destroyFramebufferResources_order_witness :
    statePresent.swapchain = true ∧
    destroyFramebufferResources statePresent =
      ({ statePresent with cmdbufCmds := [], swapchain := false },
       [Ev.waitIdle, Ev.clearCmdbuf, Ev.destroySwapchain,
        Ev.destroyImageMem (ImageKind.framebuffer 0),
        Ev.destroyImageMem (ImageKind.framebuffer 1),
        Ev.destroyImageMem ImageKind.depthBuffer,
        Ev.destroyImageMem ImageKind.colorBuffer]) :=
  ⟨rfl, destroyFramebufferResources_order statePresent rfl⟩

/-- C5: on an operation-mode event with the swapchain present,
`onOperationMode` performs the whole destruction sequence first, then
recomputes the framebuffer dimensions, then the whole creation sequence (at
the new dimensions); every destruction event precedes every allocation
event, and the rebuilt state carries the new dimensions with a live
swapchain. -/
theorem onOperationMode_rebuild (s : State) (newW newH : Nat) (h : s.swapchain = true) :
    (onOperationMode s newW newH).2 =
      [Ev.waitIdle, Ev.clearCmdbuf, Ev.destroySwapchain,
       Ev.destroyImageMem (ImageKind.framebuffer 0),
       Ev.destroyImageMem (ImageKind.framebuffer 1),
       Ev.destroyImageMem ImageKind.depthBuffer,
       Ev.destroyImageMem ImageKind.colorBuffer,
       Ev.chooseFramebufferSize,
       Ev.computeColorLayout (layout_colorbuffer newW newH),
       Ev.computeDepthLayout (layout_depthbuffer newW newH),
       Ev.allocImageMem ImageKind.colorBuffer,
       Ev.initImage ImageKind.colorBuffer,
       Ev.allocImageMem ImageKind.depthBuffer,
       Ev.initImage ImageKind.depthBuffer,
       Ev.computeFramebufferLayout (layout_framebuffer newW newH),
       Ev.allocImageMem (ImageKind.framebuffer 0),
       Ev.initImage (ImageKind.framebuffer 0),
       Ev.recordResolveList 0,
       Ev.allocImageMem (ImageKind.framebuffer 1),
       Ev.initImage (ImageKind.framebuffer 1),
       Ev.recordResolveList 1,
       Ev.createSwapchain [ImageKind.framebuffer 0, ImageKind.framebuffer 1],
       Ev.recordStatic,
       Ev.computeProjMtx newW newH] ∧
    (onOperationMode s newW newH).1.framebufferWidth = newW ∧
    (onOperationMode s newW newH).1.framebufferHeight = newH ∧
    (onOperationMode s newW newH).1.swapchain = true := by
  refine ⟨?_, rfl, rfl, rfl⟩
  show (destroyFramebufferResources s).2 ++ [Ev.chooseFramebufferSize] ++ _ = _
  rw [destroy_present_eq s h]
  rfl

/-- Witness for C5 on a concrete state whose swapchain exists, with the
concrete new dimensions 1280 by 720. -/
theorem onOperationMode_rebuild_witness :
    statePresent.swapchain = true ∧
    ((onOperationMode statePresent 1280 720).2 =
      [Ev.waitIdle, Ev.clearCmdbuf, Ev.destroySwapchain,
       Ev.destroyImageMem (ImageKind.framebuffer 0),
       Ev.destroyImageMem (ImageKind.framebuffer 1),
       Ev.destroyImageMem ImageKind.depthBuffer,
       Ev.destroyImageMem ImageKind.colorBuffer,
       Ev.chooseFramebufferSize,
       Ev.computeColorLayout (layout_colorbuffer 1280 720),
       Ev.computeDepthLayout (layout_depthbuffer 1280 720),
       Ev.allocImageMem ImageKind.colorBuffer,
       Ev.initImage ImageKind.colorBuffer,
       Ev.allocImageMem ImageKind.depthBuffer,
       Ev.initImage ImageKind.depthBuffer,
       Ev.computeFramebufferLayout (layout_framebuffer 1280 720),
       Ev.allocImageMem (ImageKind.framebuffer 0),
       Ev.initImage (ImageKind.framebuffer 0),
       Ev.recordResolveList 0,
       Ev.allocImageMem (ImageKind.framebuffer 1),
       Ev.initImage (ImageKind.framebuffer 1),
       Ev.recordResolveList 1,
       Ev.createSwapchain [ImageKind.framebuffer 0, ImageKind.framebuffer 1],
       Ev.recordStatic,
       Ev.computeProjMtx 1280 720] ∧
     (onOperationMode statePresent 1280 720).1.framebufferWidth = 1280 ∧
     (onOperationMode statePresent 1280 720).1.framebufferHeight = 720 ∧
     (onOperationMode statePresent 1280 720).1.swapchain = true) :=
  ⟨rfl, onOperationMode_rebuild statePresent 1280 720 rfl⟩

/-- C6: `createFramebufferResources` performs, in order: compute the
multisampled color layout, compute the multisampled depth layout, allocate
and initialize the color buffer, allocate and initialize the depth buffer,
compute the single-sample presentable layout, allocate and initialize each
presentable framebuffer (recording its resolve list in the same loop pass),
create the swapchain from the presentable framebuffers, record the static
render and discard command lists, and finally compute the projection matrix
from the current framebuffer dimensions. -/
theorem createFramebufferResources_order (s : State) :
    (createFramebufferResources s).2 =
      [Ev.computeColorLayout (layout_colorbuffer s.framebufferWidth s.framebufferHeight),
       Ev.computeDepthLayout (layout_depthbuffer s.framebufferWidth s.framebufferHeight),
       Ev.allocImageMem ImageKind.colorBuffer,
       Ev.initImage ImageKind.colorBuffer,
       Ev.allocImageMem ImageKind.depthBuffer,
       Ev.initImage ImageKind.depthBuffer,
       Ev.computeFramebufferLayout (layout_framebuffer s.framebufferWidth s.framebufferHeight),
       Ev.allocImageMem (ImageKind.framebuffer 0),
       Ev.initImage (ImageKind.framebuffer 0),
       Ev.recordResolveList 0,
       Ev.allocImageMem (ImageKind.framebuffer 1),
       Ev.initImage (ImageKind.framebuffer 1),
       Ev.recordResolveList 1,
       Ev.createSwapchain [ImageKind.framebuffer 0, ImageKind.framebuffer 1],
       Ev.recordStatic,
       Ev.computeProjMtx s.framebufferWidth s.framebufferHeight] :=
  create_events_eq s

/-- C7: the number of presentable framebuffers is exactly 2; after
`createFramebufferResources`, framebuffer `i` is paired with its own resolve
command list, which resolves the multisampled color buffer into framebuffer
`i`; and `render` submits, as its fourth queue operation (right after the
acquire), exactly the resolve list of the acquired slot. -/
theorem framebuffer_resolve_cmdlists :
    NumFramebuffers = 2 ∧
    (∀ s : State,
      ((createFramebufferResources s).1.framebuffer_cmdlists).length = NumFramebuffers) ∧
    (∀ s : State, ∀ i : Fin NumFramebuffers,
      ((createFramebufferResources s).1.framebuffer_cmdlists).getD i.val [] =
        [Cmd.resolveImage ImageKind.colorBuffer (ImageKind.framebuffer i.val)]) ∧
    (∀ s : State, ∀ slot : Nat,
      ((render s slot).2).get? 3 =
        some (Ev.submit (s.framebuffer_cmdlists.getD slot []))) := by
  refine ⟨rfl, fun s => rfl, fun s i => ?_, fun s slot => rfl⟩
  fin_cases i <;> rfl

/-- C8: both the color and the depth render target are created as 4x
multisampled 2DMS images sized to the current framebuffer dimensions, and
the multisample state bound by the static render command list uses the same
4x mode. -/
theorem multisample_config (s : State) :
    MultisampleMode = DkMsMode.fourX ∧
    (createFramebufferResources s).1.colorBuffer.type = DkImageType.twoDMS ∧
    (createFramebufferResources s).1.colorBuffer.msMode = MultisampleMode ∧
    (createFramebufferResources s).1.colorBuffer.width = s.framebufferWidth ∧
    (createFramebufferResources s).1.colorBuffer.height = s.framebufferHeight ∧
    (createFramebufferResources s).1.depthBuffer.type = DkImageType.twoDMS ∧
    (createFramebufferResources s).1.depthBuffer.msMode = MultisampleMode ∧
    (createFramebufferResources s).1.depthBuffer.width = s.framebufferWidth ∧
    (createFramebufferResources s).1.depthBuffer.height = s.framebufferHeight ∧
    Cmd.bindMultisampleState MultisampleMode ∈ (createFramebufferResources s).1.render_cmdlist := by
  refine ⟨rfl, rfl, rfl, rfl, rfl, rfl, rfl, rfl, rfl, ?_⟩
  show Cmd.bindMultisampleState MultisampleMode ∈
    (recordStaticCommands _).render_cmdlist
  simp [recordStaticCommands, MultisampleState.setMode, MultisampleState.setLocations]

/-- C9: `onFrame` returns `false` exactly when the designated exit button
(`KEY_PLUS`) is newly pressed, and in that case it returns at once with the
state unchanged and no queue operation performed; otherwise it writes the
new model-view matrix, performs one whole render sequence, and returns
`true`. -/
theorem onFrame_exit_behavior (s : State) (ns kDown slot : Nat) :
    ((onFrame s ns kDown slot).1 = false ↔ kDown &&& KEY_PLUS ≠ 0) ∧
    onFrame s ns kDown slot =
      (if kDown &&& KEY_PLUS ≠ 0 then (false, s, [])
       else
        (true,
         { s with transformState := { s.transformState with mdlvMtx := mdlvMtxAt ns } },
         (render { s with transformState := { s.transformState with mdlvMtx := mdlvMtxAt ns } }
           slot).2)) := by
  by_cases h : kDown &&& KEY_PLUS ≠ 0 <;> simp [onFrame, h, render]

/-- C10: when the swapchain is absent, `destroyFramebufferResources` is the
identity and performs nothing; after any call the swapchain is absent, so a
second call in succession performs nothing and changes nothing — calling it
twice equals calling it once. -/
theorem destroyFramebufferResources_idempotent (s t : State) (h : s.swapchain = false) :
    destroyFramebufferResources s = (s, []) ∧
    (destroyFramebufferResources t).1.swapchain = false ∧
    destroyFramebufferResources (destroyFramebufferResources t).1 =
      ((destroyFramebufferResources t).1, []) := by
  refine ⟨by simp [destroyFramebufferResources, h], ?_, ?_⟩
  · by_cases ht : t.swapchain <;> simp [destroyFramebufferResources, ht]
  · by_cases ht : t.swapchain <;> simp [destroyFramebufferResources, ht]

/-- Witness for C10: the post-constructor state has no swapchain, and the
double-destruction fact is instantiated on a concrete state with one. -/
theorem destroyFramebufferResources_idempotent_witness :
    initState.swapchain = false ∧
    (destroyFramebufferResources initState = (initState, []) ∧
     (destroyFramebufferResources statePresent).1.swapchain = false ∧
     destroyFramebufferResources (destroyFramebufferResources statePresent).1 =
       ((destroyFramebufferResources statePresent).1, [])) :=
  ⟨rfl, destroyFramebufferResources_idempotent initState statePresent rfl⟩

end Example06
